import Mathlib

/-!
Verification of the Eaton xStorage Home battery integration
(`custom_components/eaton_battery_storage`): a shallow embedding of the
API client (`api.py`), the snapshot coordinator (`coordinator.py`) and the
settings-patch protocol of the entity modules (`number.py`, `switch.py`,
`select.py`), together with theorems settling the specification claims.

JSON documents are modelled as an inductive value type with objects as
association lists (Python `dict` preserves insertion order; assignment
replaces in place or appends). Raised Python exceptions are modelled with
`Except`/`Option`; integers are `Int`.
-/

namespace Eaton

/-- JSON-like values as produced by `response.json()` in `api.py`.
Objects are ordered association lists, mirroring Python `dict`. -/
inductive JVal where
  | null
  | bool (b : Bool)
  | num (n : Int)
  | str (s : String)
  | arr (elems : List JVal)
  | obj (fields : List (String × JVal))

/-- Fields of a JSON object (a Python `dict` with string keys). -/
abbrev Fields := List (String × JVal)

/-- Python `d[k]` lookup on a dict, as an `Option`: first binding wins. -/
def lookup : Fields → String → Option JVal
  | [], _ => none
  | (k, v) :: rest, key => if k = key then some v else lookup rest key

/-- Python `d.get(k, default)`. -/
def getD (fs : Fields) (key : String) (dflt : JVal) : JVal :=
  (lookup fs key).getD dflt

/-- Python `d[k] = v`: replace the binding in place if the key exists,
otherwise append it at the end (insertion order preserved). -/
def setKey : Fields → String → JVal → Fields
  | [], key, v => [(key, v)]
  | (k, w) :: rest, key, v =>
      if k = key then (k, v) :: rest else (k, w) :: setKey rest key v

/-- Python truthiness of a JSON value (`if x:`): `None`, `False`, `0`,
`""`, `[]` and `{}` are falsy. -/
def truthy : JVal → Bool
  | .null => false
  | .bool b => b
  | .num n => n != 0
  | .str s => s ≠ ""
  | .arr xs => !xs.isEmpty
  | .obj fs => !fs.isEmpty

/-- Python `int(x)` restricted to the value shapes the integration can
meet: numbers pass through, `bool` is an `int` subclass (`True = 1`),
numeric strings parse; everything else raises (`none`). -/
def pyInt : JVal → Option Int
  | .num n => some n
  | .bool b => some (if b then 1 else 0)
  | .str s => s.toInt?
  | _ => none

/-- Python `isinstance(x, (int, float))`; `bool` is a subclass of `int`. -/
def isNumber : JVal → Bool
  | .num _ => true
  | .bool _ => true
  | _ => false

theorem lookup_setKey_self (fs : Fields) (k : String) (v : JVal) :
    lookup (setKey fs k v) k = some v := by
  induction fs with
  | nil => simp [setKey, lookup]
  | cons hd tl ih =>
      obtain ⟨k', w⟩ := hd
      by_cases h : k' = k
      · simp [setKey, lookup, h]
      · simp [setKey, lookup, h, ih]

theorem lookup_setKey_ne (fs : Fields) (k k' : String) (v : JVal)
    (h : k' ≠ k) : lookup (setKey fs k v) k' = lookup fs k' := by
  induction fs with
  | nil =>
      have h' : ¬k = k' := fun hh => h hh.symm
      simp [setKey, lookup, h']
  | cons hd tl ih =>
      obtain ⟨k₀, w⟩ := hd
      by_cases h0 : k₀ = k
      · subst h0
        have h' : ¬k₀ = k' := fun hh => h hh.symm
        simp [setKey, lookup, h']
      · simp only [setKey, lookup, h0, if_false]
        by_cases h1 : k₀ = k'
        · simp [lookup, h1]
        · simp [lookup, h1, ih]

/-! ### Transport/Auth client (`api.py`) -/

/-- An HTTP response as the client sees it: status code, whether the
`content_type` is `application/json`, the parsed body in the JSON case and
the raw text otherwise. -/
structure HttpResponse where
  status : Nat
  contentTypeJson : Bool
  body : JVal
  text : String

/-- Credentials held by `EatonBatteryAPI.__init__` (`api.py` 32-56) as far
as the sign-in payload needs them. -/
structure Credentials where
  host : String
  username : String
  password : String
  inverter_sn : String
  email : String

/-- The sign-in request body built by `connect` (`api.py` 61-67): note the
`userType` field is the constant `"tech"` and `inverterSn`/`email` are
always included, whatever account type was configured. -/
def signinPayload (c : Credentials) : Fields :=
  [("username", .str c.username),
   ("pwd", .str c.password),
   ("inverterSn", .str c.inverter_sn),
   ("email", .str c.email),
   ("userType", .str "tech")]

/-- Token state owned by the client (`access_token`, `token_expiration`;
`api.py` 54-55). Timestamps are seconds since an arbitrary epoch. -/
structure AuthState where
  access_token : Option JVal
  token_expiration : Option Nat

/-- Errors `connect` can raise: `ConnectionError` on network failure
(`api.py` 105-107), `ValueError` on the authentication-failure shapes
(raised with a message that may be any JSON value, `api.py` 79, 92-104),
and a raised `TypeError`/`AttributeError` for response shapes on which the
Python code itself trips (membership or attribute access on a non-dict). -/
inductive ConnectError where
  | connectionError (msg : String)
  | authError (msg : JVal)
  | raised

/-- Result of one `connect()` call: the outcome, the token state after the
call, and whether `store_token` wrote to persistent storage. -/
structure ConnectOutcome where
  result : Except ConnectError Unit
  state : AuthState
  persisted : Bool

/-- Python string equality test against a JSON value (only a string can
equal a string). -/
def strMember (k : String) : JVal → Bool
  | .str s => s = k
  | _ => false

/-- Python `"token" in x`: key membership on dicts, element membership on
lists, substring on strings, `TypeError` otherwise. -/
def pyContains (v : JVal) (k : String) : Except Unit Bool :=
  match v with
  | .obj fs => .ok (lookup fs k).isSome
  | .arr xs => .ok (xs.any (strMember k))
  | .str s => .ok ((s.splitOn k).length > 1)
  | _ => .error ()

/-- Python `a or b` on JSON values (truthiness based). -/
def pyOr (a b : JVal) : JVal := if truthy a then a else b

/-- The `ValueError` message built from a structured error object
(`api.py` 92-99): `err.get("description") or err.get("errCode") or
"Authentication failed"`. -/
def connectErrMsg (efs : Fields) : JVal :=
  pyOr (getD efs "description" .null)
    (pyOr (getD efs "errCode" .null) (.str "Authentication failed"))

/-- The `elif "error" in result ... else ...` chain of `connect`
(`api.py` 92-104), reached whenever the success condition fails. -/
def connectErrorBranch (fs : Fields) (st : AuthState) : ConnectOutcome :=
  match lookup fs "error" with
  | some (.obj efs) => ⟨.error (.authError (connectErrMsg efs)), st, false⟩
  | some _ => ⟨.error .raised, st, false⟩
  | none =>
      ⟨.error (.authError (.str "Authentication failed with unexpected response.")),
       st, false⟩

/-- Response handling of `connect()` (`api.py` 71-104): `now` is the
current time in seconds; on success the expiry is `now + 55` minutes
(`api.py` 87-89) and the token is persisted (`store_token`, `api.py` 90). -/
def connectResponse (st : AuthState) (now : Nat) (r : HttpResponse) :
    ConnectOutcome :=
  if r.contentTypeJson = false then
    ⟨.error (.authError (.str "Authentication failed: non-JSON response")), st, false⟩
  else
    match r.body with
    | .obj fs =>
        if r.status = 200 ∧ truthy (getD fs "successful" .null) then
          match pyContains (getD fs "result" (.obj [])) "token" with
          | .error _ => ⟨.error .raised, st, false⟩
          | .ok true =>
              match getD fs "result" (.obj []) with
              | .obj gs =>
                  match lookup gs "token" with
                  | some tok =>
                      ⟨.ok (), ⟨some tok, some (now + 55 * 60)⟩, true⟩
                  | none => ⟨.error .raised, st, false⟩
              | _ => ⟨.error .raised, st, false⟩
          | .ok false => connectErrorBranch fs st
        else connectErrorBranch fs st
    | _ => ⟨.error .raised, st, false⟩

/-- `connect()` (`api.py` 58-110). The wire interaction is abstracted as
its outcome: `.error msg` is an `aiohttp.ClientError` (network failure,
turned into a `ConnectionError`, `api.py` 105-107), `.ok r` the HTTP
response received. -/
def connect (st : AuthState) (now : Nat) (wire : Except String HttpResponse) :
    ConnectOutcome :=
  match wire with
  | .error msg => ⟨.error (.connectionError ("Cannot connect to device: " ++ msg)), st, false⟩
  | .ok r => connectResponse st now r

/-- Response shape test used to state claims about `connect`: the body
carries a token at `result.token`. -/
def signinHasToken (r : HttpResponse) : Bool :=
  r.contentTypeJson &&
    match r.body with
    | .obj fs =>
        match getD fs "result" (.obj []) with
        | .obj gs => (lookup gs "token").isSome
        | _ => false
    | _ => false

/-- Parsing of a first-attempt response by `make_request`
(`api.py` 189-203): JSON bodies are returned as-is, non-JSON responses
become a structured failure object carrying the HTTP status. -/
def jsonOrFailure (r : HttpResponse) : JVal :=
  if r.contentTypeJson then r.body
  else .obj [("successful", .bool false), ("error", .str r.text),
             ("status", .num (r.status : Int))]

/-- Parsing of the retry response after a 401 (`api.py` 178-187): same,
except the failure object carries no `status` field. -/
def jsonOrFailureRetry (r : HttpResponse) : JVal :=
  if r.contentTypeJson then r.body
  else .obj [("successful", .bool false), ("error", .str r.text)]

/-- Result of one `make_request` call, instrumented with how many
re-authentications were performed after the first response and how many
HTTP requests were sent in total. -/
structure RequestOutcome where
  result : JVal
  reauths : Nat
  requestsSent : Nat

/-- `make_request` (`api.py` 147-210), entered with a valid token (after
`ensure_token_valid`). `first` is the response to the initial request;
`reauth` is the outcome of `refresh_token()` if a 401 forces it (`.error e`
models `connect` raising, whose message string the outer handler turns
into a failure object, `api.py` 205-210); `retry` is the response the
retried request would get. -/
def make_request (first : HttpResponse) (reauth : Except String Unit)
    (retry : HttpResponse) : RequestOutcome :=
  if first.status = 401 then
    match reauth with
    | .error e =>
        ⟨.obj [("successful", .bool false), ("error", .str e)], 1, 1⟩
    | .ok _ => ⟨jsonOrFailureRetry retry, 1, 2⟩
  else ⟨jsonOrFailure first, 0, 1⟩

/-! ### Snapshot coordinator (`coordinator.py`) -/

/-- The raw outcome of one endpoint fetch inside a poll cycle: `.error`
models a raised exception (caught by the per-section handler), `.ok v` the
JSON value the API client returned. -/
abbrev FetchResult := Except Unit JVal

/-- The eleven per-endpoint fetch outcomes of one poll cycle
(`coordinator.py` 100-167), in source order. -/
structure CycleFetches where
  status : FetchResult
  device : FetchResult
  config_state : FetchResult
  settings : FetchResult
  metrics : FetchResult
  metrics_daily : FetchResult
  schedule : FetchResult
  technical_status : FetchResult
  maintenance_diagnostics : FetchResult
  notifications : FetchResult
  unread_notifications_count : FetchResult

/-- Unwrap rule of `status`/`device`/`technical_status`/
`maintenance_diagnostics`/`notifications`/`unread_notifications_count`
(`coordinator.py` 103, 110, 141, 153-155, 162-164):
`x.get("result", {}) if x else {}`, with the enclosing `except` turning a
raised exception — including `.get` on a truthy non-dict — into `{}`. -/
def resultOrEmpty : FetchResult → JVal
  | .error _ => .obj []
  | .ok v =>
      if truthy v then
        match v with
        | .obj fs => getD fs "result" (.obj [])
        | _ => .obj []
      else .obj []

/-- Unwrap rule of `config_state`/`settings`/`metrics`/`metrics_daily`/
`schedule` (`coordinator.py` 125-129):
`data.get("result", {}) if data and isinstance(data, dict) and "result" in
data else data or {}`. -/
def resultIfPresentElseRaw : FetchResult → JVal
  | .error _ => .obj []
  | .ok v =>
      if truthy v then
        match v with
        | .obj fs =>
            match lookup fs "result" with
            | some rv => rv
            | none => .obj fs
        | other => other
      else .obj []

/-- Snapshot assembly of `_async_update_data` (`coordinator.py` 94-169):
one entry per section, in source insertion order, each through its
endpoint's unwrap rule. -/
def buildSnapshot (f : CycleFetches) : Fields :=
  [("status", resultOrEmpty f.status),
   ("device", resultOrEmpty f.device),
   ("config_state", resultIfPresentElseRaw f.config_state),
   ("settings", resultIfPresentElseRaw f.settings),
   ("metrics", resultIfPresentElseRaw f.metrics),
   ("metrics_daily", resultIfPresentElseRaw f.metrics_daily),
   ("schedule", resultIfPresentElseRaw f.schedule),
   ("technical_status", resultOrEmpty f.technical_status),
   ("maintenance_diagnostics", resultOrEmpty f.maintenance_diagnostics),
   ("notifications", resultOrEmpty f.notifications),
   ("unread_notifications_count", resultOrEmpty f.unread_notifications_count)]

/-- `_async_update_data` as a whole (`coordinator.py` 94-173): every
per-section fetch is wrapped in its own `try/except`, so the outer
`except` that would raise `UpdateFailed` (line 171-173) guards only the
assembly itself and is unreachable — the cycle always returns a snapshot. -/
def updateData (f : CycleFetches) : Except String Fields :=
  .ok (buildSnapshot f)

/-- Coordinator-visible state: the published snapshot (`None` before the
first refresh) and the `last_update_success` flag. -/
structure CoordinatorState where
  data : Option Fields
  last_update_success : Bool

/-- One poll cycle as observed through the host `DataUpdateCoordinator`
contract stated in the spec (§4.3): a returned snapshot is swapped in
whole and the success flag set; a raised `UpdateFailed` leaves the
last-good snapshot in place and clears the flag. -/
def applyCycle (st : CoordinatorState) (f : CycleFetches) : CoordinatorState :=
  match updateData f with
  | .ok snap => ⟨some snap, true⟩
  | .error _ => ⟨st.data, false⟩

/-- A core-endpoint fetch that failed, in either of the two forms failure
takes in this code base: a raised exception, or a returned structured
failure object (a JSON dict with no `result` field, as produced by
`make_request` on network errors and non-JSON responses). -/
def coreFetchFailed (r : FetchResult) : Prop :=
  r = .error () ∨ ∃ fs, r = .ok (.obj fs) ∧ lookup fs "result" = none

/-- `battery_level` (`coordinator.py` 42-52):
`data.get("status", {}).get("energyFlow", {}).get("stateOfCharge")` with
`None`/`AttributeError` degraded to `None`. -/
def battery_level (st : CoordinatorState) : Option JVal :=
  match st.data with
  | none => none
  | some top =>
      match getD top "status" (.obj []) with
      | .obj sfs =>
          match getD sfs "energyFlow" (.obj []) with
          | .obj efs => lookup efs "stateOfCharge"
          | _ => none
      | _ => none

/-! ### Settings-patch protocol (`number.py`, `switch.py`, `select.py`) -/

/-- Normalization of one composite sub-object before a settings write
(`number.py` 272-289 and the identical blocks in `switch.py`/`select.py`):
if the field is present and is a dict, replace it by its identifier field,
defaulting to `""` when the identifier is absent. -/
def transformComposite (cs : Fields) (key idKey : String) : Fields :=
  match lookup cs key with
  | some (.obj sub) => setKey cs key (getD sub idKey (.str ""))
  | _ => cs

/-- The full composite normalization applied by every settings patch:
`country`/`city` by `geonameId`, `timezone` by `id`. -/
def transformComposites (cs : Fields) : Fields :=
  transformComposite
    (transformComposite (transformComposite cs "country" "geonameId") "city" "geonameId")
    "timezone" "id"

/-- Nested single-field update used by the threshold and energy-saving
patches (`number.py` 291-296, `switch.py` 241-245): ensure the outer key
exists (`if ... not in ...: ... = {}`), then assign the inner key. `none`
models the `TypeError` Python raises when the outer value is not a dict. -/
def setNested (cs : Fields) (outer inner : String) (v : JVal) : Option Fields :=
  match lookup cs outer with
  | some (.obj es) => some (setKey cs outer (.obj (setKey es inner v)))
  | some _ => none
  | none => some (setKey (setKey cs outer (.obj [])) outer (.obj (setKey [] inner v)))

/-- Settings patch of the house-consumption threshold
(`number.py` 270-296): normalize composites, then set
`energySavingMode.houseConsumptionThreshold`. -/
def patchHouseThreshold (cs : Fields) (v : Int) : Option Fields :=
  setNested (transformComposites cs) "energySavingMode" "houseConsumptionThreshold" (.num v)

/-- Settings patch of the energy-saving toggle (`switch.py` 220-245 for
`async_turn_on`; `async_turn_off` is the same with `false`). -/
def patchEnergySavingEnabled (cs : Fields) (b : Bool) : Option Fields :=
  setNested (transformComposites cs) "energySavingMode" "enabled" (.bool b)

/-- Settings patch of the battery backup level (`number.py` 410-428):
normalize composites, then set the top-level `bmsBackupLevel`. -/
def patchBmsBackupLevel (cs : Fields) (v : Int) : Fields :=
  setKey (transformComposites cs) "bmsBackupLevel" (.num v)

/-- Settings patch of the default operation mode (`select.py` 117-181):
normalize composites, then replace the top-level `defaultMode` with the
chosen command and its derived parameters. -/
def patchDefaultMode (cs : Fields) (command : String) (params : Fields) : Fields :=
  setKey (transformComposites cs) "defaultMode"
    (.obj [("command", .str command), ("parameters", .obj params)])

/-- Observable outcome of one `async_set_native_value` run on the
threshold entity: the payload submitted to `PUT /api/settings` (if the
write was reached), whether `async_request_refresh` was called, the final
optimistic value, and whether a `HomeAssistantError` was raised. -/
structure PatchOutcome where
  submitted : Option JVal
  refreshRequested : Bool
  optimistic : Option Int
  raisedError : Bool

/-- The dict-response path of `async_set_native_value` (`number.py`
260-318): check `result` usability, patch, submit, refresh. -/
def setHouseThresholdObj (v : Int) (fs : Fields) (putResult : FetchResult) :
    PatchOutcome :=
  if ¬ truthy (getD fs "result" .null) then
    ⟨none, false, none, false⟩
  else
    match getD fs "result" .null with
    | .obj cs =>
        match patchHouseThreshold cs v with
        | some patched =>
            match putResult with
            | .error _ => ⟨some (.obj [("settings", .obj patched)]), true, none, true⟩
            | .ok _ => ⟨some (.obj [("settings", .obj patched)]), true, none, false⟩
        | none => ⟨none, true, none, true⟩
    | _ => ⟨none, true, none, true⟩

/-- `EatonXStorageHouseConsumptionThresholdNumber.async_set_native_value`
(`number.py` 251-327). `getSettings` is the outcome of the pre-fetch
`api.get_settings()` (`.error` models a raised exception), `putResult`
that of `api.update_settings` on the submitted payload. The optimistic
value is set to `v` on entry; the record reports where it ends up. -/
def setHouseThreshold (v : Int) (getSettings : FetchResult)
    (putResult : FetchResult) : PatchOutcome :=
  match getSettings with
  | .error _ => ⟨none, true, none, true⟩
  | .ok resp =>
      if ¬ truthy resp then
        ⟨none, false, none, false⟩
      else
        match resp with
        | .obj fs => setHouseThresholdObj v fs putResult
        | _ => ⟨none, true, none, true⟩

/-- Condition under which the pre-fetch check of `async_set_native_value`
takes the silent-abort branch (`number.py` 258-265): the response is falsy,
or it is a dict whose `result` entry is falsy or absent. -/
def preFetchUnusable (resp : JVal) : Bool :=
  if truthy resp then
    match resp with
    | .obj fs => ! truthy (getD fs "result" .null)
    | _ => false
  else true

/-! ### Optimistic value lifecycle (`number.py` 208-242, 329-334) -/

/-- Per-entity optimistic state: `some v` while a requested value shadows
the snapshot, `none` otherwise. -/
structure EntityState where
  optimistic : Option Int

/-- Events visible to the optimistic-value state machine: a mutation being
issued (`async_set_native_value` entry, `number.py` 255) and a coordinator
update arriving (`_handle_coordinator_update`, `number.py` 329-334). -/
inductive EntityEv where
  | setIssued (v : Int)
  | coordinatorUpdate

/-- One event step: issuing a mutation installs the optimistic value, a
coordinator update unconditionally clears it. -/
def stepEv (_s : EntityState) : EntityEv → EntityState
  | .setIssued v => ⟨some v⟩
  | .coordinatorUpdate => ⟨none⟩

/-- Event-list evolution of the optimistic state. -/
def runEv (s : EntityState) : List EntityEv → EntityState
  | [] => s
  | e :: rest => runEv (stepEv s e) rest

/-- The snapshot-derived threshold reading (`number.py` 220-242): prefer
`device.energySavingMode.houseConsumptionThreshold`, fall back to
`settings.energySavingMode.houseConsumptionThreshold`, default `300`
(also on the `AttributeError` the code catches when a sub-value is not a
dict). -/
def thresholdFromSnapshot (data : Option Fields) : JVal :=
  let device := match data with
    | some top => getD top "device" (.obj [])
    | none => .obj []
  let fallback :=
    let settings := match data with
      | some top => getD top "settings" (.obj [])
      | none => .obj []
    let es2 := match settings with
      | .obj sfs => getD sfs "energySavingMode" (.obj [])
      | _ => .obj []
    match es2 with
    | .obj efs => getD efs "houseConsumptionThreshold" (.num 300)
    | _ => .num 300
  match device with
  | .obj dfs =>
      match lookup dfs "energySavingMode" with
      | some (.obj es) =>
          match lookup es "houseConsumptionThreshold" with
          | some v => v
          | none => fallback
      | _ => fallback
  | _ => fallback

/-- `native_value` of the threshold entity (`number.py` 216-242): the
optimistic value wins when present, otherwise the snapshot reading. -/
def thresholdNativeValue (s : EntityState) (data : Option Fields) : JVal :=
  match s.optimistic with
  | some v => .num v
  | none => thresholdFromSnapshot data

/-! ### Mode-command parameter derivation (`select.py`) -/

/-- Parameter derivation of
`EatonXStorageDefaultOperationModeSelect.async_select_option`
(`select.py` 136-175): parameters are computed from the freshly fetched
settings document `cs` (and, for the frequency-regulation fallback, from
the coordinator snapshot `coordData`), never supplied by the caller. The
inner `try` turns any raised conversion error into `{}`. -/
def defaultModeParameters (command : String) (cs : Fields)
    (coordData : Option Fields) : Fields :=
  if command = "SET_PEAK_SHAVING" then
    match getD cs "energySavingMode" (.obj []) with
    | .obj es =>
        match lookup es "houseConsumptionThreshold" with
        | some (.num n) => [("maxHousePeakConsumption", .num n)]
        | some (.bool b) => [("maxHousePeakConsumption", .num (if b then 1 else 0))]
        | _ => []
    | _ => []
  else if command = "SET_VARIABLE_GRID_INJECTION" then
    [("maximumPower", .num 0)]
  else if command = "SET_FREQUENCY_REGULATION" then
    match lookup cs "bmsBackupLevel" with
    | some (.num n) => [("powerAllocation", .num 0), ("optimalSoc", .num n)]
    | some (.bool b) => [("powerAllocation", .num 0), ("optimalSoc", .num (if b then 1 else 0))]
    | _ =>
        let status := match coordData with
          | some top => getD top "status" (.obj [])
          | none => .obj []
        match status with
        | .obj sfs =>
            match getD sfs "energyFlow" (.obj []) with
            | .obj efs =>
                match pyInt (getD efs "batteryBackupLevel" (.num 28)) with
                | some m => [("powerAllocation", .num 0), ("optimalSoc", .num m)]
                | none => []
            | _ => []
        | _ => [("powerAllocation", .num 0), ("optimalSoc", .num 28)]
  else []

/-- Parameter derivation of
`EatonXStorageCurrentOperationModeSelect.async_select_option`
(`select.py` 301-352): parameters come from the stored helper values and
the coordinator snapshot. `none` models a raised conversion error, which
the outer handler turns into "no command sent". -/
def currentModeParameters (command : String) (helpers : Fields)
    (coordData : Option Fields) : Option Fields :=
  if command = "SET_CHARGE" then
    match pyInt (getD helpers "charge_power" (.num 15)),
          pyInt (getD helpers "charge_end_soc" (.num 90)) with
    | some p, some s =>
        some [("action", .str "ACTION_CHARGE"), ("power", .num p), ("soc", .num s)]
    | _, _ => none
  else if command = "SET_DISCHARGE" then
    match pyInt (getD helpers "discharge_power" (.num 15)),
          pyInt (getD helpers "discharge_end_soc" (.num 10)) with
    | some p, some s =>
        some [("action", .str "ACTION_DISCHARGE"), ("power", .num p), ("soc", .num s)]
    | _, _ => none
  else if command = "SET_PEAK_SHAVING" then
    let settings := match coordData with
      | some top => getD top "settings" (.obj [])
      | none => .obj []
    let esm := match settings with
      | .obj sfs => getD sfs "energySavingMode" (.obj [])
      | _ => .obj []
    let max_peak := match esm with
      | .obj efs => getD efs "houseConsumptionThreshold" (.num 1000)
      | _ => .num 1000
    match pyInt max_peak with
    | some m => some [("maxHousePeakConsumption", .num m)]
    | none => none
  else if command = "SET_VARIABLE_GRID_INJECTION" then
    some [("maximumPower", .num 0)]
  else if command = "SET_FREQUENCY_REGULATION" then
    let settings := match coordData with
      | some top => getD top "settings" (.obj [])
      | none => .obj []
    let soc := match settings with
      | .obj sfs => getD sfs "bmsBackupLevel" (.num 28)
      | _ => .num 28
    match pyInt soc with
    | some m => some [("powerAllocation", .num 0), ("optimalSoc", .num m)]
    | none => none
  else some []

/-! ### Helper lemmas -/

theorem resultOrEmpty_of_failed (r : FetchResult) (h : coreFetchFailed r) :
    resultOrEmpty r = .obj [] := by
  rcases h with h | ⟨fs, h, hl⟩
  · subst h; rfl
  · subst h
    cases fs with
    | nil => rfl
    | cons hd tl => simp [resultOrEmpty, truthy, getD, hl]

theorem buildSnapshot_sections (f : CycleFetches) :
    lookup (buildSnapshot f) "status" = some (resultOrEmpty f.status) ∧
    lookup (buildSnapshot f) "device" = some (resultOrEmpty f.device) ∧
    lookup (buildSnapshot f) "config_state" = some (resultIfPresentElseRaw f.config_state) ∧
    lookup (buildSnapshot f) "settings" = some (resultIfPresentElseRaw f.settings) ∧
    lookup (buildSnapshot f) "metrics" = some (resultIfPresentElseRaw f.metrics) ∧
    lookup (buildSnapshot f) "metrics_daily" = some (resultIfPresentElseRaw f.metrics_daily) ∧
    lookup (buildSnapshot f) "schedule" = some (resultIfPresentElseRaw f.schedule) ∧
    lookup (buildSnapshot f) "technical_status" = some (resultOrEmpty f.technical_status) ∧
    lookup (buildSnapshot f) "maintenance_diagnostics" = some (resultOrEmpty f.maintenance_diagnostics) ∧
    lookup (buildSnapshot f) "notifications" = some (resultOrEmpty f.notifications) ∧
    lookup (buildSnapshot f) "unread_notifications_count" = some (resultOrEmpty f.unread_notifications_count) :=
  ⟨rfl, rfl, rfl, rfl, rfl, rfl, rfl, rfl, rfl, rfl, rfl⟩

theorem resultOrEmpty_result_some (fs : Fields) (v : JVal)
    (h : lookup fs "result" = some v) : resultOrEmpty (.ok (.obj fs)) = v := by
  cases fs with
  | nil => simp [lookup] at h
  | cons hd tl => simp [resultOrEmpty, truthy, getD, h]

theorem resultOrEmpty_result_none (fs : Fields)
    (h : lookup fs "result" = none) : resultOrEmpty (.ok (.obj fs)) = .obj [] :=
  resultOrEmpty_of_failed _ (.inr ⟨fs, rfl, h⟩)

theorem resultIfPresentElseRaw_result_some (fs : Fields) (v : JVal)
    (h : lookup fs "result" = some v) :
    resultIfPresentElseRaw (.ok (.obj fs)) = v := by
  cases fs with
  | nil => simp [lookup] at h
  | cons hd tl => simp [resultIfPresentElseRaw, truthy, h]

theorem resultIfPresentElseRaw_result_none (fs : Fields)
    (h : lookup fs "result" = none) :
    resultIfPresentElseRaw (.ok (.obj fs)) =
      if fs.isEmpty then .obj [] else .obj fs := by
  cases fs with
  | nil => rfl
  | cons hd tl => simp [resultIfPresentElseRaw, truthy, h]

/-! ### Claim C1 -/

/-- C1: the claim states that a poll cycle in which both the `status` and
`device` fetches fail leaves the snapshot unchanged and sets
`lastUpdateSuccessful` to false. On the code this is false at the concrete
input below: every per-section fetch failure is swallowed by its own
handler, so the cycle still returns a snapshot — the coordinator replaces
the published data and reports success. -/
theorem c1_core_failure_counterexample :
    ¬ (((applyCycle ⟨some [("status", JVal.obj [("energyFlow", JVal.num 7)])], true⟩
          ⟨.error (), .error (), .error (), .error (), .error (), .error (),
           .error (), .error (), .error (), .error (), .error ()⟩).data
        = some [("status", JVal.obj [("energyFlow", JVal.num 7)])]) ∧
       ((applyCycle ⟨some [("status", JVal.obj [("energyFlow", JVal.num 7)])], true⟩
          ⟨.error (), .error (), .error (), .error (), .error (), .error (),
           .error (), .error (), .error (), .error (), .error ()⟩).last_update_success
        = false)) := by
  intro h
  have h2 := h.2
  simp [applyCycle, updateData] at h2

/-- C1 (amended): when both core fetches fail — by raising or by returning
a structured failure object — the cycle still succeeds: the snapshot is
replaced by one in which `status` and `device` are empty mappings, and
`lastUpdateSuccessful` is true. -/
theorem c1_core_failure_cycle_succeeds (st : CoordinatorState) (f : CycleFetches)
    (hs : coreFetchFailed f.status) (hd : coreFetchFailed f.device) :
    (applyCycle st f).last_update_success = true ∧
    (applyCycle st f).data = some (buildSnapshot f) ∧
    lookup (buildSnapshot f) "status" = some (.obj []) ∧
    lookup (buildSnapshot f) "device" = some (.obj []) := by
  refine ⟨rfl, rfl, ?_, ?_⟩
  · rw [(buildSnapshot_sections f).1, resultOrEmpty_of_failed _ hs]
  · rw [(buildSnapshot_sections f).2.1, resultOrEmpty_of_failed _ hd]

/-- C1 witness: the amended theorem applied at a concrete cycle in which
the `status` fetch raised and the `device` fetch returned a failure
object. -/
theorem c1_core_failure_cycle_succeeds_witness :
    coreFetchFailed (Except.error ()) ∧
    coreFetchFailed (Except.ok (JVal.obj [("successful", JVal.bool false)])) ∧
    ((applyCycle ⟨none, false⟩
        ⟨.error (), .ok (.obj [("successful", .bool false)]), .error (), .error (),
         .error (), .error (), .error (), .error (), .error (), .error (),
         .error ()⟩).last_update_success = true ∧
     (applyCycle ⟨none, false⟩
        ⟨.error (), .ok (.obj [("successful", .bool false)]), .error (), .error (),
         .error (), .error (), .error (), .error (), .error (), .error (),
         .error ()⟩).data = some (buildSnapshot
        ⟨.error (), .ok (.obj [("successful", .bool false)]), .error (), .error (),
         .error (), .error (), .error (), .error (), .error (), .error (),
         .error ()⟩) ∧
     lookup (buildSnapshot
        ⟨.error (), .ok (.obj [("successful", .bool false)]), .error (), .error (),
         .error (), .error (), .error (), .error (), .error (), .error (),
         .error ()⟩) "status" = some (.obj []) ∧
     lookup (buildSnapshot
        ⟨.error (), .ok (.obj [("successful", .bool false)]), .error (), .error (),
         .error (), .error (), .error (), .error (), .error (), .error (),
         .error ()⟩) "device" = some (.obj [])) :=
  ⟨Or.inl rfl, Or.inr ⟨_, rfl, rfl⟩,
   c1_core_failure_cycle_succeeds ⟨none, false⟩ _ (Or.inl rfl) (Or.inr ⟨_, rfl, rfl⟩)⟩

/-! ### Claim C2 -/

/-- C2: the claim states that every request whose first response is a 401
gets exactly one re-authentication and exactly one retry. On the code this
is false at the concrete input below: when the re-authentication itself
raises (here a network failure), the exception handler returns a failure
object and the retry is never sent — only one request goes out. -/
theorem c2_single_retry_counterexample :
    (make_request ⟨401, true, .obj [], ""⟩ (.error "Cannot connect to device: timeout")
        ⟨200, true, .obj [("result", .num 1)], ""⟩).requestsSent = 1 ∧
    ¬ ((make_request ⟨401, true, .obj [], ""⟩ (.error "Cannot connect to device: timeout")
        ⟨200, true, .obj [("result", .num 1)], ""⟩).requestsSent = 2) := by
  constructor
  · rfl
  · intro h
    simp [make_request] at h

/-- C2 (amended): on a first-response 401 exactly one re-authentication is
attempted; if it succeeds, exactly one retry is sent and whatever that
retry yields is returned as-is (a JSON body — even a second 401 — is
returned unmodified); if the re-authentication raises, no retry is sent
and a structured failure object is returned. -/
theorem c2_single_retry_on_401 (first : HttpResponse) (reauth : Except String Unit)
    (retry : HttpResponse) (h : first.status = 401) :
    (make_request first reauth retry).reauths = 1 ∧
    (∀ u, reauth = .ok u →
       (make_request first reauth retry).requestsSent = 2 ∧
       (make_request first reauth retry).result = jsonOrFailureRetry retry ∧
       (retry.contentTypeJson = true →
          (make_request first reauth retry).result = retry.body)) ∧
    (∀ e, reauth = .error e →
       (make_request first reauth retry).requestsSent = 1 ∧
       (make_request first reauth retry).result =
         .obj [("successful", .bool false), ("error", .str e)]) := by
  unfold make_request
  rw [if_pos h]
  cases reauth with
  | error e =>
      refine ⟨rfl, ?_, ?_⟩
      · intro u hu; exact Except.noConfusion hu
      · intro e' he'
        injection he' with h'
        subst h'
        exact ⟨rfl, rfl⟩
  | ok u =>
      refine ⟨rfl, ?_, ?_⟩
      · intro u' _
        refine ⟨rfl, rfl, ?_⟩
        intro hj
        simp [jsonOrFailureRetry, hj]
      · intro e' he'; exact Except.noConfusion he'

/-- C2 witness: the amended theorem applied at a concrete 401 whose retry
is itself a 401, returned as-is. -/
theorem c2_single_retry_on_401_witness :
    (⟨401, true, .obj [("code", .num 401)], ""⟩ : HttpResponse).status = 401 ∧
    ((make_request ⟨401, true, .obj [("code", .num 401)], ""⟩ (.ok ())
        ⟨401, true, .obj [("secondFailure", .bool true)], ""⟩).requestsSent = 2 ∧
     (make_request ⟨401, true, .obj [("code", .num 401)], ""⟩ (.ok ())
        ⟨401, true, .obj [("secondFailure", .bool true)], ""⟩).result =
       .obj [("secondFailure", .bool true)]) :=
  ⟨rfl,
   ((c2_single_retry_on_401 ⟨401, true, .obj [("code", .num 401)], ""⟩ (.ok ())
      ⟨401, true, .obj [("secondFailure", .bool true)], ""⟩ rfl).2.1 () rfl).1,
   ((c2_single_retry_on_401 ⟨401, true, .obj [("code", .num 401)], ""⟩ (.ok ())
      ⟨401, true, .obj [("secondFailure", .bool true)], ""⟩ rfl).2.1 () rfl).2.2 rfl⟩

/-! ### Claim C10 -/

/-- C10: whatever account type the user configured, the sign-in body built
by `connect()` has `userType = "tech"` and always carries the `inverterSn`
and `email` fields. -/
theorem c10_signin_payload_user_type (c : Credentials) :
    lookup (signinPayload c) "userType" = some (.str "tech") ∧
    (lookup (signinPayload c) "inverterSn").isSome = true ∧
    (lookup (signinPayload c) "email").isSome = true :=
  ⟨rfl, rfl, rfl⟩

/-! ### Claim C4 -/

theorem pyContains_obj (fs : Fields) (k : String) :
    pyContains (.obj fs) k = .ok (lookup fs k).isSome := rfl

theorem pyContains_arr (xs : List JVal) (k : String) :
    pyContains (.arr xs) k = .ok (xs.any (strMember k)) := rfl

theorem pyContains_str (s k : String) :
    pyContains (.str s) k = .ok (decide ((s.splitOn k).length > 1)) := rfl

theorem connectErrorBranch_spec (fs : Fields) (st : AuthState) :
    (∃ e, (connectErrorBranch fs st).result = .error e ∧
       ∀ m, e ≠ ConnectError.connectionError m) ∧
    (connectErrorBranch fs st).state = st ∧
    (connectErrorBranch fs st).persisted = false := by
  unfold connectErrorBranch
  cases h : lookup fs "error" with
  | none =>
      exact ⟨⟨_, rfl, fun m hm => ConnectError.noConfusion hm⟩, rfl, rfl⟩
  | some v =>
      cases v <;>
        exact ⟨⟨_, rfl, fun m hm => ConnectError.noConfusion hm⟩, rfl, rfl⟩

/-- C4: a sign-in response that carries no token at `result.token` makes
`connect()` fail with an authentication-side error (never the
`ConnectionError` reserved for network failures), leaving the stored
access token and expiration untouched and writing nothing to persistent
storage. -/
theorem c4_connect_token_untouched (st : AuthState) (now : Nat)
    (r : HttpResponse) (h : signinHasToken r = false) :
    (∃ e, (connect st now (.ok r)).result = .error e ∧
       ∀ m, e ≠ ConnectError.connectionError m) ∧
    (connect st now (.ok r)).state = st ∧
    (connect st now (.ok r)).persisted = false := by
  have hres : ∀ fs gs, r.contentTypeJson = true → r.body = .obj fs →
      getD fs "result" (.obj []) = .obj gs → lookup gs "token" = none := by
    intro fs gs hj hb hgs
    unfold signinHasToken at h
    rw [hj, hb] at h
    simp only [Bool.true_and] at h
    cases hlk : lookup gs "token" with
    | none => rfl
    | some tok =>
        exfalso
        simp [hgs, hlk] at h
  show (∃ e, (connectResponse st now r).result = .error e ∧
       ∀ m, e ≠ ConnectError.connectionError m) ∧
    (connectResponse st now r).state = st ∧
    (connectResponse st now r).persisted = false
  unfold connectResponse
  cases hj : r.contentTypeJson with
  | false =>
      exact ⟨⟨_, rfl, fun m hm => ConnectError.noConfusion hm⟩, rfl, rfl⟩
  | true =>
      cases hb : r.body with
      | obj fs =>
          simp only [reduceIte]
          by_cases hc : r.status = 200 ∧ truthy (getD fs "successful" JVal.null) = true
          · simp only [if_pos hc]
            cases hr : getD fs "result" (.obj []) with
            | obj gs =>
                rw [pyContains_obj, hres fs gs hj hb hr]
                exact connectErrorBranch_spec fs st
            | arr xs =>
                rw [pyContains_arr]
                cases hx : xs.any (strMember "token") with
                | false => exact connectErrorBranch_spec fs st
                | true => exact ⟨⟨_, rfl, fun m hm => ConnectError.noConfusion hm⟩, rfl, rfl⟩
            | str s =>
                rw [pyContains_str]
                by_cases hx : (s.splitOn "token").length > 1
                · have hd : decide ((s.splitOn "token").length > 1) = true := by
                    simp [hx]
                  rw [hd]
                  exact ⟨⟨_, rfl, fun m hm => ConnectError.noConfusion hm⟩, rfl, rfl⟩
                · have hd : decide ((s.splitOn "token").length > 1) = false := by
                    simp [hx]
                  rw [hd]
                  exact connectErrorBranch_spec fs st
            | null =>
                exact ⟨⟨_, rfl, fun m hm => ConnectError.noConfusion hm⟩, rfl, rfl⟩
            | bool b =>
                exact ⟨⟨_, rfl, fun m hm => ConnectError.noConfusion hm⟩, rfl, rfl⟩
            | num n =>
                exact ⟨⟨_, rfl, fun m hm => ConnectError.noConfusion hm⟩, rfl, rfl⟩
          · simp only [if_neg hc]
            exact connectErrorBranch_spec fs st
      | null => exact ⟨⟨_, rfl, fun m hm => ConnectError.noConfusion hm⟩, rfl, rfl⟩
      | bool b => exact ⟨⟨_, rfl, fun m hm => ConnectError.noConfusion hm⟩, rfl, rfl⟩
      | num n => exact ⟨⟨_, rfl, fun m hm => ConnectError.noConfusion hm⟩, rfl, rfl⟩
      | str s => exact ⟨⟨_, rfl, fun m hm => ConnectError.noConfusion hm⟩, rfl, rfl⟩
      | arr xs => exact ⟨⟨_, rfl, fun m hm => ConnectError.noConfusion hm⟩, rfl, rfl⟩

/-- C4 witness: the theorem applied to a stored token and a concrete
200-but-token-less error response. -/
theorem c4_connect_token_untouched_witness :
    signinHasToken ⟨200, true,
        .obj [("error", .obj [("description", .str "Wrong credentials")])], ""⟩ = false ∧
    ((∃ e, (connect ⟨some (.str "old-token"), some 100⟩ 500
        (.ok ⟨200, true,
          .obj [("error", .obj [("description", .str "Wrong credentials")])], ""⟩)).result
        = .error e ∧ ∀ m, e ≠ ConnectError.connectionError m) ∧
     (connect ⟨some (.str "old-token"), some 100⟩ 500
        (.ok ⟨200, true,
          .obj [("error", .obj [("description", .str "Wrong credentials")])], ""⟩)).state
        = ⟨some (.str "old-token"), some 100⟩ ∧
     (connect ⟨some (.str "old-token"), some 100⟩ 500
        (.ok ⟨200, true,
          .obj [("error", .obj [("description", .str "Wrong credentials")])], ""⟩)).persisted
        = false) :=
  ⟨rfl, c4_connect_token_untouched ⟨some (.str "old-token"), some 100⟩ 500
    ⟨200, true, .obj [("error", .obj [("description", .str "Wrong credentials")])], ""⟩ rfl⟩

/-! ### Claim C3 -/

/-- C3: the claim states that a section whose fetch failed is always the
empty mapping. On the code this is false at the concrete input below: for
the `settings` section (and the rest of its endpoint group) a fetch that
fails by returning the structured failure object of `make_request` —
its normal outcome on a network error — is stored verbatim, not as the
empty mapping. -/
theorem c3_empty_section_counterexample :
    lookup (buildSnapshot
      ⟨.error (), .error (), .error (),
       .ok (.obj [("successful", JVal.bool false), ("error", JVal.str "Cannot connect")]),
       .error (), .error (), .error (), .error (), .error (), .error (),
       .error ()⟩) "settings"
      = some (.obj [("successful", JVal.bool false), ("error", JVal.str "Cannot connect")]) ∧
    JVal.obj [("successful", JVal.bool false), ("error", JVal.str "Cannot connect")] ≠
      JVal.obj [] := by
  constructor
  · rfl
  · simp

/-- C3 (amended): every snapshot contains exactly the fixed section keys
in order, and a section whose fetch raised an exception is the empty
mapping; however, for the `config_state`/`settings`/`metrics`/
`metrics_daily`/`schedule` group a fetch that returned a non-empty
structured failure object (no `result` field) is stored as that object,
not as the empty mapping, while the other sections collapse such an
object to the empty mapping. -/
theorem c3_snapshot_sections_present (f : CycleFetches) :
    (buildSnapshot f).map Prod.fst =
      ["status", "device", "config_state", "settings", "metrics", "metrics_daily",
       "schedule", "technical_status", "maintenance_diagnostics", "notifications",
       "unread_notifications_count"] ∧
    (f.status = .error () → lookup (buildSnapshot f) "status" = some (.obj [])) ∧
    (f.device = .error () → lookup (buildSnapshot f) "device" = some (.obj [])) ∧
    (f.config_state = .error () → lookup (buildSnapshot f) "config_state" = some (.obj [])) ∧
    (f.settings = .error () → lookup (buildSnapshot f) "settings" = some (.obj [])) ∧
    (f.metrics = .error () → lookup (buildSnapshot f) "metrics" = some (.obj [])) ∧
    (f.metrics_daily = .error () → lookup (buildSnapshot f) "metrics_daily" = some (.obj [])) ∧
    (f.schedule = .error () → lookup (buildSnapshot f) "schedule" = some (.obj [])) ∧
    (f.technical_status = .error () → lookup (buildSnapshot f) "technical_status" = some (.obj [])) ∧
    (f.maintenance_diagnostics = .error () → lookup (buildSnapshot f) "maintenance_diagnostics" = some (.obj [])) ∧
    (f.notifications = .error () → lookup (buildSnapshot f) "notifications" = some (.obj [])) ∧
    (f.unread_notifications_count = .error () → lookup (buildSnapshot f) "unread_notifications_count" = some (.obj [])) ∧
    (∀ fs, lookup fs "result" = none → resultOrEmpty (.ok (.obj fs)) = .obj []) ∧
    (∀ fs, fs ≠ [] → lookup fs "result" = none →
       resultIfPresentElseRaw (.ok (.obj fs)) = .obj fs) := by
  have hsec := buildSnapshot_sections f
  refine ⟨rfl, ?_, ?_, ?_, ?_, ?_, ?_, ?_, ?_, ?_, ?_, ?_, ?_, ?_⟩
  · intro h; rw [hsec.1, h]; rfl
  · intro h; rw [hsec.2.1, h]; rfl
  · intro h; rw [hsec.2.2.1, h]; rfl
  · intro h; rw [hsec.2.2.2.1, h]; rfl
  · intro h; rw [hsec.2.2.2.2.1, h]; rfl
  · intro h; rw [hsec.2.2.2.2.2.1, h]; rfl
  · intro h; rw [hsec.2.2.2.2.2.2.1, h]; rfl
  · intro h; rw [hsec.2.2.2.2.2.2.2.1, h]; rfl
  · intro h; rw [hsec.2.2.2.2.2.2.2.2.1, h]; rfl
  · intro h; rw [hsec.2.2.2.2.2.2.2.2.2.1, h]; rfl
  · intro h; rw [hsec.2.2.2.2.2.2.2.2.2.2, h]; rfl
  · intro fs hl; exact resultOrEmpty_result_none fs hl
  · intro fs hne hl
    rw [resultIfPresentElseRaw_result_none fs hl]
    cases fs with
    | nil => exact absurd rfl hne
    | cons hd tl => rfl

/-- C3 witness: the amended theorem applied at a cycle in which every
fetch raised, plus the failure-object behaviour at a concrete non-empty
object without a `result` field. -/
theorem c3_snapshot_sections_present_witness :
    (buildSnapshot ⟨.error (), .error (), .error (), .error (), .error (),
        .error (), .error (), .error (), .error (), .error (), .error ()⟩).map Prod.fst =
      ["status", "device", "config_state", "settings", "metrics", "metrics_daily",
       "schedule", "technical_status", "maintenance_diagnostics", "notifications",
       "unread_notifications_count"] ∧
    lookup (buildSnapshot ⟨.error (), .error (), .error (), .error (), .error (),
        .error (), .error (), .error (), .error (), .error (), .error ()⟩) "settings"
      = some (.obj []) ∧
    resultOrEmpty (.ok (.obj [("successful", JVal.bool false)])) = .obj [] ∧
    resultIfPresentElseRaw (.ok (.obj [("successful", JVal.bool false)])) =
      .obj [("successful", JVal.bool false)] := by
  have h := c3_snapshot_sections_present
    ⟨.error (), .error (), .error (), .error (), .error (), .error (), .error (),
     .error (), .error (), .error (), .error ()⟩
  refine ⟨h.1, h.2.2.2.1 rfl, ?_, ?_⟩
  · exact h.2.2.2.2.2.2.2.2.2.2.2.2.1 [("successful", JVal.bool false)] rfl
  · exact h.2.2.2.2.2.2.2.2.2.2.2.2.2 [("successful", JVal.bool false)] (by simp) rfl

/-! ### Claim C8 -/

/-- C8: the claim states that `config_state`, `metrics`, `metrics_daily`
and `schedule` store the response raw for every response shape. On the
code this is false at the concrete input below: a `config_state` response
of the form `{"result": 5}` is unwrapped to `5`, because the middle
endpoint group unwraps `result` whenever the field is present. -/
theorem c8_unwrap_counterexample :
    lookup (buildSnapshot
      ⟨.error (), .error (), .ok (.obj [("result", JVal.num 5)]), .error (),
       .error (), .error (), .error (), .error (), .error (), .error (),
       .error ()⟩) "config_state" = some (.num 5) ∧
    some (JVal.num 5) ≠ some (JVal.obj [("result", JVal.num 5)]) := by
  constructor
  · rfl
  · simp

/-- C8 (amended): the per-endpoint unwrap table of `_async_update_data`:
`status`/`device`/`technical_status`/`maintenance_diagnostics`/
`notifications`/`unread_notifications_count` always store the `result`
field of a dict response (empty mapping when it is absent), while
`config_state`/`settings`/`metrics`/`metrics_daily`/`schedule` store the
`result` field when present and otherwise the raw response (`{}` for a
falsy one). -/
theorem c8_unwrap_rules (f : CycleFetches) :
    (lookup (buildSnapshot f) "status" = some (resultOrEmpty f.status) ∧
     lookup (buildSnapshot f) "device" = some (resultOrEmpty f.device) ∧
     lookup (buildSnapshot f) "technical_status" = some (resultOrEmpty f.technical_status) ∧
     lookup (buildSnapshot f) "maintenance_diagnostics" = some (resultOrEmpty f.maintenance_diagnostics) ∧
     lookup (buildSnapshot f) "notifications" = some (resultOrEmpty f.notifications) ∧
     lookup (buildSnapshot f) "unread_notifications_count" = some (resultOrEmpty f.unread_notifications_count) ∧
     lookup (buildSnapshot f) "config_state" = some (resultIfPresentElseRaw f.config_state) ∧
     lookup (buildSnapshot f) "settings" = some (resultIfPresentElseRaw f.settings) ∧
     lookup (buildSnapshot f) "metrics" = some (resultIfPresentElseRaw f.metrics) ∧
     lookup (buildSnapshot f) "metrics_daily" = some (resultIfPresentElseRaw f.metrics_daily) ∧
     lookup (buildSnapshot f) "schedule" = some (resultIfPresentElseRaw f.schedule)) ∧
    (∀ fs v, lookup fs "result" = some v →
       resultOrEmpty (.ok (.obj fs)) = v ∧
       resultIfPresentElseRaw (.ok (.obj fs)) = v) ∧
    (∀ fs, lookup fs "result" = none →
       resultOrEmpty (.ok (.obj fs)) = .obj [] ∧
       resultIfPresentElseRaw (.ok (.obj fs)) =
         (if fs.isEmpty then .obj [] else .obj fs)) ∧
    (∀ v, truthy v = true → (∀ gs, v ≠ .obj gs) →
       resultIfPresentElseRaw (.ok v) = v) := by
  have hsec := buildSnapshot_sections f
  refine ⟨⟨hsec.1, hsec.2.1, hsec.2.2.2.2.2.2.2.1, hsec.2.2.2.2.2.2.2.2.1,
      hsec.2.2.2.2.2.2.2.2.2.1, hsec.2.2.2.2.2.2.2.2.2.2, hsec.2.2.1,
      hsec.2.2.2.1, hsec.2.2.2.2.1, hsec.2.2.2.2.2.1, hsec.2.2.2.2.2.2.1⟩,
    ?_, ?_, ?_⟩
  · intro fs v hl
    exact ⟨resultOrEmpty_result_some fs v hl, resultIfPresentElseRaw_result_some fs v hl⟩
  · intro fs hl
    exact ⟨resultOrEmpty_result_none fs hl, resultIfPresentElseRaw_result_none fs hl⟩
  · intro v ht hno
    cases v with
    | obj gs => exact absurd rfl (hno gs)
    | null => simp [truthy] at ht
    | bool b => simp [resultIfPresentElseRaw, ht]
    | num n => simp [resultIfPresentElseRaw, ht]
    | str s => simp [resultIfPresentElseRaw, ht]
    | arr xs => simp [resultIfPresentElseRaw, ht]

/-- C8 witness: the amended theorem applied at a concrete cycle, with the
`result`-present and `result`-absent shapes discharged on concrete
objects. -/
theorem c8_unwrap_rules_witness :
    lookup (buildSnapshot ⟨.error (), .error (), .ok (.obj [("a", JVal.num 3)]),
        .error (), .error (), .error (), .error (), .error (), .error (),
        .error (), .error ()⟩) "config_state"
      = some (resultIfPresentElseRaw (.ok (.obj [("a", JVal.num 3)]))) ∧
    lookup [("result", JVal.num 9)] "result" = some (JVal.num 9) ∧
    resultOrEmpty (.ok (.obj [("result", JVal.num 9)])) = JVal.num 9 ∧
    resultIfPresentElseRaw (.ok (.obj [("result", JVal.num 9)])) = JVal.num 9 := by
  have h := c8_unwrap_rules ⟨.error (), .error (), .ok (.obj [("a", JVal.num 3)]),
    .error (), .error (), .error (), .error (), .error (), .error (), .error (),
    .error ()⟩
  have h2 := h.2.1 [("result", JVal.num 9)] (JVal.num 9) rfl
  exact ⟨h.1.2.2.2.2.2.2.1, rfl, h2.1, h2.2⟩

/-! ### Claim C6 -/

/-- C6: the claim states that a settings patch whose pre-fetch yields no
usable result surfaces a user-visible recoverable error after clearing the
optimistic state and forcing a refresh. On the code this is false at the
concrete input below (`get_settings` returning the structured failure
object of a network error): the operation does abort before submitting and
clears the optimistic value, but it returns silently — no error is raised
and no refresh is requested. -/
theorem c6_prefetch_abort_counterexample :
    ((setHouseThreshold 450
        (.ok (.obj [("successful", JVal.bool false), ("error", JVal.str "timeout")]))
        (.ok (.obj []))).submitted = none ∧
     (setHouseThreshold 450
        (.ok (.obj [("successful", JVal.bool false), ("error", JVal.str "timeout")]))
        (.ok (.obj []))).optimistic = none ∧
     (setHouseThreshold 450
        (.ok (.obj [("successful", JVal.bool false), ("error", JVal.str "timeout")]))
        (.ok (.obj []))).raisedError = false ∧
     (setHouseThreshold 450
        (.ok (.obj [("successful", JVal.bool false), ("error", JVal.str "timeout")]))
        (.ok (.obj []))).refreshRequested = false) ∧
    ¬ ((setHouseThreshold 450
        (.ok (.obj [("successful", JVal.bool false), ("error", JVal.str "timeout")]))
        (.ok (.obj []))).raisedError = true ∧
       (setHouseThreshold 450
        (.ok (.obj [("successful", JVal.bool false), ("error", JVal.str "timeout")]))
        (.ok (.obj []))).refreshRequested = true) :=
  ⟨⟨rfl, rfl, rfl, rfl⟩, fun h => Bool.noConfusion h.1⟩

/-- C6 (amended): a settings patch whose pre-fetch returns no usable
result aborts before submitting anything and clears the optimistic value,
but silently: no error is raised and no refresh is requested. Only when
the pre-fetch raises an exception does the operation clear the optimistic
value, force a refresh and raise a user-visible error. -/
theorem c6_prefetch_failure_is_silent (v : Int) (resp : JVal) (putR : FetchResult) :
    (preFetchUnusable resp = true →
       setHouseThreshold v (.ok resp) putR = ⟨none, false, none, false⟩) ∧
    setHouseThreshold v (.error ()) putR = ⟨none, true, none, true⟩ := by
  constructor
  · intro h
    unfold setHouseThreshold
    cases ht : truthy resp with
    | false => simp [ht]
    | true =>
        unfold preFetchUnusable at h
        rw [ht] at h
        simp only [if_true] at h
        cases resp with
        | obj fs =>
            simp only [Bool.not_eq_true'] at h
            simp [ht, setHouseThresholdObj, h]
        | null => simp [truthy] at ht
        | bool b => simp at h
        | num n => simp at h
        | str s => simp at h
        | arr xs => simp at h
  · rfl

/-- C6 witness: the amended theorem applied at a concrete pre-fetch
response with no `result` field. -/
theorem c6_prefetch_failure_is_silent_witness :
    preFetchUnusable (.obj [("successful", JVal.bool false)]) = true ∧
    setHouseThreshold 450 (.ok (.obj [("successful", JVal.bool false)]))
        (.ok (.obj [])) = ⟨none, false, none, false⟩ :=
  ⟨rfl, (c6_prefetch_failure_is_silent 450
      (.obj [("successful", JVal.bool false)]) (.ok (.obj []))).1 rfl⟩

/-! ### Claim C7 -/

theorem runEv_append (s : EntityState) (a b : List EntityEv) :
    runEv s (a ++ b) = runEv (runEv s a) b := by
  induction a generalizing s with
  | nil => rfl
  | cons e rest ih => simp [runEv, ih]

theorem runEv_none_of_no_set (l : List EntityEv)
    (h : ∀ w, EntityEv.setIssued w ∉ l) :
    runEv ⟨none⟩ l = ⟨none⟩ := by
  induction l with
  | nil => rfl
  | cons e rest ih =>
      cases e with
      | setIssued w => exact absurd (List.mem_cons_self _ _) (h w)
      | coordinatorUpdate =>
          have h' : ∀ w, EntityEv.setIssued w ∉ rest := by
            intro w hw
            exact h w (List.mem_cons_of_mem _ hw)
          simp [runEv, stepEv, ih h']

/-- C7: from the moment a mutation is issued, reads return the optimistic
value, superseding the snapshot; a coordinator update unconditionally
clears it, after which reads return the snapshot-derived authoritative
value; and once one update has arrived, as long as no new mutation is
issued the optimistic value is never re-asserted — reads keep following
the snapshot even if it still shows the old value. -/
theorem c7_optimistic_cleared_on_refresh (v : Int) (s : EntityState)
    (data : Option Fields) (pre post : List EntityEv)
    (h : ∀ w, EntityEv.setIssued w ∉ post) :
    thresholdNativeValue (stepEv s (.setIssued v)) data = .num v ∧
    (runEv s (pre ++ EntityEv.coordinatorUpdate :: post)).optimistic = none ∧
    thresholdNativeValue (runEv s (pre ++ EntityEv.coordinatorUpdate :: post)) data
      = thresholdFromSnapshot data := by
  have hrun : runEv s (pre ++ EntityEv.coordinatorUpdate :: post) = ⟨none⟩ := by
    rw [runEv_append]
    show runEv (stepEv (runEv s pre) .coordinatorUpdate) post = ⟨none⟩
    exact runEv_none_of_no_set post h
  refine ⟨rfl, ?_, ?_⟩
  · rw [hrun]
  · rw [hrun]; rfl

/-- C7 witness: the theorem applied at a concrete trace — threshold set to
450 while a snapshot still reports 300; the immediate read returns 450,
and after the next coordinator update the read follows the snapshot (still
300: the optimistic value is not re-asserted). -/
theorem c7_optimistic_cleared_on_refresh_witness :
    (∀ w, EntityEv.setIssued w ∉ ([] : List EntityEv)) ∧
    (thresholdNativeValue (stepEv ⟨none⟩ (.setIssued 450))
        (some [("settings", .obj [("energySavingMode",
          .obj [("houseConsumptionThreshold", JVal.num 300)])])]) = .num 450 ∧
     (runEv ⟨none⟩ ([EntityEv.setIssued 450] ++ EntityEv.coordinatorUpdate :: [])).optimistic
        = none ∧
     thresholdNativeValue
        (runEv ⟨none⟩ ([EntityEv.setIssued 450] ++ EntityEv.coordinatorUpdate :: []))
        (some [("settings", .obj [("energySavingMode",
          .obj [("houseConsumptionThreshold", JVal.num 300)])])])
        = thresholdFromSnapshot (some [("settings", .obj [("energySavingMode",
          .obj [("houseConsumptionThreshold", JVal.num 300)])])])) :=
  ⟨fun _w hw => List.not_mem_nil _ hw,
   c7_optimistic_cleared_on_refresh 450 ⟨none⟩
     (some [("settings", .obj [("energySavingMode",
       .obj [("houseConsumptionThreshold", JVal.num 300)])])])
     [EntityEv.setIssued 450] []
     (fun _w hw => List.not_mem_nil _ hw)⟩

/-! ### Claim C9 -/

/-- C9: whenever `SET_PEAK_SHAVING` is selected while the current
house-consumption threshold is a number, the submitted command parameters
include `maxHousePeakConsumption` equal to that threshold, derived from
live state (the freshly fetched settings for the default-mode select, the
snapshot settings for the current-mode select) rather than supplied by the
caller. -/
theorem c9_peak_shaving_threshold (cs es : Fields) (n : Int)
    (coordData : Option Fields) (top sfs esm helpers : Fields) :
    (lookup cs "energySavingMode" = some (.obj es) →
     lookup es "houseConsumptionThreshold" = some (.num n) →
     defaultModeParameters "SET_PEAK_SHAVING" cs coordData =
       [("maxHousePeakConsumption", .num n)]) ∧
    (lookup top "settings" = some (.obj sfs) →
     lookup sfs "energySavingMode" = some (.obj esm) →
     lookup esm "houseConsumptionThreshold" = some (.num n) →
     currentModeParameters "SET_PEAK_SHAVING" helpers (some top) =
       some [("maxHousePeakConsumption", .num n)]) := by
  constructor
  · intro h1 h2
    unfold defaultModeParameters
    rw [if_pos rfl]
    simp [getD, h1, h2]
  · intro h1 h2 h3
    unfold currentModeParameters
    rw [if_neg (by simp), if_neg (by simp), if_pos rfl]
    simp [getD, h1, h2, h3, pyInt]

/-- C9 witness: the theorem applied with a 600 W threshold in both the
fetched settings document and the snapshot settings. -/
theorem c9_peak_shaving_threshold_witness :
    lookup [("energySavingMode",
        JVal.obj [("houseConsumptionThreshold", JVal.num 600)])] "energySavingMode"
      = some (.obj [("houseConsumptionThreshold", JVal.num 600)]) ∧
    lookup [("houseConsumptionThreshold", JVal.num 600)] "houseConsumptionThreshold"
      = some (.num 600) ∧
    defaultModeParameters "SET_PEAK_SHAVING"
        [("energySavingMode", JVal.obj [("houseConsumptionThreshold", JVal.num 600)])]
        none
      = [("maxHousePeakConsumption", .num 600)] ∧
    currentModeParameters "SET_PEAK_SHAVING" []
        (some [("settings", JVal.obj [("energySavingMode",
          JVal.obj [("houseConsumptionThreshold", JVal.num 600)])])])
      = some [("maxHousePeakConsumption", .num 600)] := by
  have h := c9_peak_shaving_threshold
    [("energySavingMode", JVal.obj [("houseConsumptionThreshold", JVal.num 600)])]
    [("houseConsumptionThreshold", JVal.num 600)] 600 none
    [("settings", JVal.obj [("energySavingMode",
      JVal.obj [("houseConsumptionThreshold", JVal.num 600)])])]
    [("energySavingMode", JVal.obj [("houseConsumptionThreshold", JVal.num 600)])]
    [("houseConsumptionThreshold", JVal.num 600)] []
  exact ⟨rfl, rfl, h.1 rfl rfl, h.2 rfl rfl rfl⟩

/-! ### Claim C5 -/

theorem transformComposite_lookup_ne (cs : Fields) (key idKey k : String)
    (h : k ≠ key) :
    lookup (transformComposite cs key idKey) k = lookup cs k := by
  unfold transformComposite
  cases hl : lookup cs key with
  | none => rfl
  | some v =>
      cases v with
      | obj sub => exact lookup_setKey_ne cs key k _ h
      | null => rfl
      | bool b => rfl
      | num n => rfl
      | str s => rfl
      | arr xs => rfl

theorem transformComposite_obj (cs : Fields) (key idKey : String) (sub : Fields)
    (h : lookup cs key = some (.obj sub)) :
    lookup (transformComposite cs key idKey) key = some (getD sub idKey (.str "")) := by
  unfold transformComposite
  rw [h]
  exact lookup_setKey_self cs key _

theorem transformComposites_lookup_ne (cs : Fields) (k : String)
    (h1 : k ≠ "country") (h2 : k ≠ "city") (h3 : k ≠ "timezone") :
    lookup (transformComposites cs) k = lookup cs k := by
  unfold transformComposites
  rw [transformComposite_lookup_ne _ _ _ _ h3, transformComposite_lookup_ne _ _ _ _ h2,
    transformComposite_lookup_ne _ _ _ _ h1]

theorem transformComposites_country (cs : Fields) (sub : Fields)
    (h : lookup cs "country" = some (.obj sub)) :
    lookup (transformComposites cs) "country" = some (getD sub "geonameId" (.str "")) := by
  unfold transformComposites
  rw [transformComposite_lookup_ne _ _ _ _ (by decide),
    transformComposite_lookup_ne _ _ _ _ (by decide)]
  exact transformComposite_obj _ _ _ _ h

theorem transformComposites_city (cs : Fields) (sub : Fields)
    (h : lookup cs "city" = some (.obj sub)) :
    lookup (transformComposites cs) "city" = some (getD sub "geonameId" (.str "")) := by
  unfold transformComposites
  rw [transformComposite_lookup_ne _ _ _ _ (by decide)]
  refine transformComposite_obj _ _ _ _ ?_
  rw [transformComposite_lookup_ne _ _ _ _ (by decide)]
  exact h

theorem transformComposites_timezone (cs : Fields) (sub : Fields)
    (h : lookup cs "timezone" = some (.obj sub)) :
    lookup (transformComposites cs) "timezone" = some (getD sub "id" (.str "")) := by
  unfold transformComposites
  refine transformComposite_obj _ _ _ _ ?_
  rw [transformComposite_lookup_ne _ _ _ _ (by decide),
    transformComposite_lookup_ne _ _ _ _ (by decide)]
  exact h

/-- What the settings-patch normalization guarantees for the composite
sub-objects: each one present as an object in the input document ends up
as its bare identifier (the `geonameId`/`id` field, `""` when absent). -/
def compositesNormalized (cs patched : Fields) : Prop :=
  (∀ sub, lookup cs "country" = some (.obj sub) →
     lookup patched "country" = some (getD sub "geonameId" (.str ""))) ∧
  (∀ sub, lookup cs "city" = some (.obj sub) →
     lookup patched "city" = some (getD sub "geonameId" (.str ""))) ∧
  (∀ sub, lookup cs "timezone" = some (.obj sub) →
     lookup patched "timezone" = some (getD sub "id" (.str "")))

theorem compositesNormalized_transform (cs : Fields) :
    compositesNormalized cs (transformComposites cs) :=
  ⟨fun sub h => transformComposites_country cs sub h,
   fun sub h => transformComposites_city cs sub h,
   fun sub h => transformComposites_timezone cs sub h⟩

theorem compositesNormalized_of_agree (cs p q : Fields)
    (hp : compositesNormalized cs p)
    (hc : lookup q "country" = lookup p "country")
    (hy : lookup q "city" = lookup p "city")
    (hz : lookup q "timezone" = lookup p "timezone") :
    compositesNormalized cs q :=
  ⟨fun sub h => by rw [hc]; exact hp.1 sub h,
   fun sub h => by rw [hy]; exact hp.2.1 sub h,
   fun sub h => by rw [hz]; exact hp.2.2 sub h⟩

theorem setNested_spec (cs : Fields) (outer inner : String) (v : JVal)
    (patched : Fields) (h : setNested cs outer inner v = some patched) :
    ∃ es', lookup patched outer = some (.obj es') ∧
      lookup es' inner = some v ∧
      (∀ k, k ≠ inner → lookup es' k =
        (match lookup cs outer with
         | some (.obj es) => lookup es k
         | _ => none)) ∧
      (∀ k, k ≠ outer → lookup patched k = lookup cs k) := by
  unfold setNested at h
  cases hl : lookup cs outer with
  | none =>
      rw [hl] at h
      injection h with h
      subst h
      refine ⟨setKey [] inner v, ?_, ?_, ?_, ?_⟩
      · exact lookup_setKey_self _ outer _
      · exact lookup_setKey_self [] inner v
      · intro k hk
        rw [lookup_setKey_ne [] inner k v hk]
        rfl
      · intro k hk
        rw [lookup_setKey_ne _ outer k _ hk, lookup_setKey_ne _ outer k _ hk]
  | some val =>
      rw [hl] at h
      cases val with
      | obj es =>
          injection h with h
          subst h
          refine ⟨setKey es inner v, ?_, ?_, ?_, ?_⟩
          · exact lookup_setKey_self _ outer _
          · exact lookup_setKey_self es inner v
          · intro k hk
            rw [lookup_setKey_ne es inner k v hk]
          · intro k hk
            exact lookup_setKey_ne _ outer k _ hk
      | null => exact Option.noConfusion h
      | bool b => exact Option.noConfusion h
      | num n => exact Option.noConfusion h
      | str s => exact Option.noConfusion h
      | arr xs => exact Option.noConfusion h

/-- C5: every settings field patch (house-consumption threshold, energy
saving toggle, battery backup level, default operation mode) normalizes
each composite sub-object (`country`/`city` to `geonameId`, `timezone` to
`id`) that is present as an object, changes exactly the one intended
field, preserves every other field of the fetched document verbatim, and
the threshold operation submits the full patched document in a single
`PUT /api/settings` write wrapped as `{"settings": ...}`. -/
theorem c5_patch_normalizes_and_preserves :
    (∀ cs v patched, patchHouseThreshold cs v = some patched →
       compositesNormalized cs patched ∧
       (∃ es', lookup patched "energySavingMode" = some (.obj es') ∧
          lookup es' "houseConsumptionThreshold" = some (.num v) ∧
          (∀ k, k ≠ "houseConsumptionThreshold" → lookup es' k =
            (match lookup cs "energySavingMode" with
             | some (.obj es) => lookup es k
             | _ => none))) ∧
       (∀ k, k ≠ "country" → k ≠ "city" → k ≠ "timezone" → k ≠ "energySavingMode" →
          lookup patched k = lookup cs k)) ∧
    (∀ cs b patched, patchEnergySavingEnabled cs b = some patched →
       compositesNormalized cs patched ∧
       (∃ es', lookup patched "energySavingMode" = some (.obj es') ∧
          lookup es' "enabled" = some (.bool b) ∧
          (∀ k, k ≠ "enabled" → lookup es' k =
            (match lookup cs "energySavingMode" with
             | some (.obj es) => lookup es k
             | _ => none))) ∧
       (∀ k, k ≠ "country" → k ≠ "city" → k ≠ "timezone" → k ≠ "energySavingMode" →
          lookup patched k = lookup cs k)) ∧
    (∀ cs v, compositesNormalized cs (patchBmsBackupLevel cs v) ∧
       lookup (patchBmsBackupLevel cs v) "bmsBackupLevel" = some (.num v) ∧
       (∀ k, k ≠ "country" → k ≠ "city" → k ≠ "timezone" → k ≠ "bmsBackupLevel" →
          lookup (patchBmsBackupLevel cs v) k = lookup cs k)) ∧
    (∀ cs cmd ps, compositesNormalized cs (patchDefaultMode cs cmd ps) ∧
       lookup (patchDefaultMode cs cmd ps) "defaultMode" =
         some (.obj [("command", .str cmd), ("parameters", .obj ps)]) ∧
       (∀ k, k ≠ "country" → k ≠ "city" → k ≠ "timezone" → k ≠ "defaultMode" →
          lookup (patchDefaultMode cs cmd ps) k = lookup cs k)) ∧
    (∀ v fs cs patched putR, fs ≠ [] → cs ≠ [] →
       lookup fs "result" = some (.obj cs) →
       patchHouseThreshold cs v = some patched →
       (setHouseThreshold v (.ok (.obj fs)) putR).submitted =
         some (.obj [("settings", .obj patched)])) := by
  have htcES : ∀ cs : Fields,
      lookup (transformComposites cs) "energySavingMode" = lookup cs "energySavingMode" :=
    fun cs => transformComposites_lookup_ne cs _ (by decide) (by decide) (by decide)
  refine ⟨?_, ?_, ?_, ?_, ?_⟩
  · intro cs v patched hpatch
    obtain ⟨es', h1, h2, h3, h4⟩ := setNested_spec _ _ _ _ _ hpatch
    refine ⟨?_, ⟨es', h1, h2, ?_⟩, ?_⟩
    · refine compositesNormalized_of_agree cs (transformComposites cs) patched
        (compositesNormalized_transform cs) ?_ ?_ ?_ <;>
        exact h4 _ (by decide)
    · intro k hk
      rw [h3 k hk, htcES cs]
    · intro k hc hy hz he
      rw [h4 k he]
      exact transformComposites_lookup_ne cs k hc hy hz
  · intro cs b patched hpatch
    obtain ⟨es', h1, h2, h3, h4⟩ := setNested_spec _ _ _ _ _ hpatch
    refine ⟨?_, ⟨es', h1, h2, ?_⟩, ?_⟩
    · refine compositesNormalized_of_agree cs (transformComposites cs) patched
        (compositesNormalized_transform cs) ?_ ?_ ?_ <;>
        exact h4 _ (by decide)
    · intro k hk
      rw [h3 k hk, htcES cs]
    · intro k hc hy hz he
      rw [h4 k he]
      exact transformComposites_lookup_ne cs k hc hy hz
  · intro cs v
    refine ⟨?_, ?_, ?_⟩
    · refine compositesNormalized_of_agree cs (transformComposites cs) _
        (compositesNormalized_transform cs) ?_ ?_ ?_ <;>
        exact lookup_setKey_ne _ _ _ _ (by decide)
    · exact lookup_setKey_self _ _ _
    · intro k hc hy hz hb
      unfold patchBmsBackupLevel
      rw [lookup_setKey_ne _ _ _ _ hb]
      exact transformComposites_lookup_ne cs k hc hy hz
  · intro cs cmd ps
    refine ⟨?_, ?_, ?_⟩
    · refine compositesNormalized_of_agree cs (transformComposites cs) _
        (compositesNormalized_transform cs) ?_ ?_ ?_ <;>
        exact lookup_setKey_ne _ _ _ _ (by decide)
    · exact lookup_setKey_self _ _ _
    · intro k hc hy hz hd
      unfold patchDefaultMode
      rw [lookup_setKey_ne _ _ _ _ hd]
      exact transformComposites_lookup_ne cs k hc hy hz
  · intro v fs cs patched putR hfs hcs hres hpatch
    have h1 : truthy (JVal.obj fs) = true := by
      cases fs with
      | nil => exact absurd rfl hfs
      | cons a l => rfl
    have hg : getD fs "result" JVal.null = .obj cs := by
      rw [getD, hres]
      rfl
    have h2 : truthy (JVal.obj cs) = true := by
      cases cs with
      | nil => exact absurd rfl hcs
      | cons a l => rfl
    cases putR with
    | error e => simp [setHouseThreshold, setHouseThresholdObj, h1, hg, h2, hpatch]
    | ok u => simp [setHouseThreshold, setHouseThresholdObj, h1, hg, h2, hpatch]

/-- C5 witness: the theorem applied at a concrete fetched settings
document holding all three composite objects, an extra field and an
existing energy-saving block; threshold patched to 450. -/
theorem c5_patch_normalizes_and_preserves_witness :
    patchHouseThreshold
      [("country", JVal.obj [("geonameId", JVal.num 123)]),
       ("city", JVal.obj [("geonameId", JVal.num 45)]),
       ("timezone", JVal.obj [("id", JVal.str "Europe/Paris")]),
       ("mode", JVal.str "x"),
       ("energySavingMode", JVal.obj [("enabled", JVal.bool true),
          ("houseConsumptionThreshold", JVal.num 500)]),
       ("bmsBackupLevel", JVal.num 20)] 450
      = some
      [("country", JVal.num 123),
       ("city", JVal.num 45),
       ("timezone", JVal.str "Europe/Paris"),
       ("mode", JVal.str "x"),
       ("energySavingMode", JVal.obj [("enabled", JVal.bool true),
          ("houseConsumptionThreshold", JVal.num 450)]),
       ("bmsBackupLevel", JVal.num 20)] ∧
    compositesNormalized
      [("country", JVal.obj [("geonameId", JVal.num 123)]),
       ("city", JVal.obj [("geonameId", JVal.num 45)]),
       ("timezone", JVal.obj [("id", JVal.str "Europe/Paris")]),
       ("mode", JVal.str "x"),
       ("energySavingMode", JVal.obj [("enabled", JVal.bool true),
          ("houseConsumptionThreshold", JVal.num 500)]),
       ("bmsBackupLevel", JVal.num 20)]
      [("country", JVal.num 123),
       ("city", JVal.num 45),
       ("timezone", JVal.str "Europe/Paris"),
       ("mode", JVal.str "x"),
       ("energySavingMode", JVal.obj [("enabled", JVal.bool true),
          ("houseConsumptionThreshold", JVal.num 450)]),
       ("bmsBackupLevel", JVal.num 20)] ∧
    (setHouseThreshold 450
        (.ok (.obj [("successful", JVal.bool true),
          ("result", JVal.obj
            [("country", JVal.obj [("geonameId", JVal.num 123)]),
             ("city", JVal.obj [("geonameId", JVal.num 45)]),
             ("timezone", JVal.obj [("id", JVal.str "Europe/Paris")]),
             ("mode", JVal.str "x"),
             ("energySavingMode", JVal.obj [("enabled", JVal.bool true),
                ("houseConsumptionThreshold", JVal.num 500)]),
             ("bmsBackupLevel", JVal.num 20)])]))
        (.ok (.obj []))).submitted
      = some (.obj [("settings", JVal.obj
          [("country", JVal.num 123),
           ("city", JVal.num 45),
           ("timezone", JVal.str "Europe/Paris"),
           ("mode", JVal.str "x"),
           ("energySavingMode", JVal.obj [("enabled", JVal.bool true),
              ("houseConsumptionThreshold", JVal.num 450)]),
           ("bmsBackupLevel", JVal.num 20)])]) := by
  refine ⟨rfl, ?_, ?_⟩
  · exact (c5_patch_normalizes_and_preserves.1
      [("country", JVal.obj [("geonameId", JVal.num 123)]),
       ("city", JVal.obj [("geonameId", JVal.num 45)]),
       ("timezone", JVal.obj [("id", JVal.str "Europe/Paris")]),
       ("mode", JVal.str "x"),
       ("energySavingMode", JVal.obj [("enabled", JVal.bool true),
          ("houseConsumptionThreshold", JVal.num 500)]),
       ("bmsBackupLevel", JVal.num 20)] 450
      [("country", JVal.num 123),
       ("city", JVal.num 45),
       ("timezone", JVal.str "Europe/Paris"),
       ("mode", JVal.str "x"),
       ("energySavingMode", JVal.obj [("enabled", JVal.bool true),
          ("houseConsumptionThreshold", JVal.num 450)]),
       ("bmsBackupLevel", JVal.num 20)] rfl).1
  · exact c5_patch_normalizes_and_preserves.2.2.2.2 450
      [("successful", JVal.bool true),
       ("result", JVal.obj
         [("country", JVal.obj [("geonameId", JVal.num 123)]),
          ("city", JVal.obj [("geonameId", JVal.num 45)]),
          ("timezone", JVal.obj [("id", JVal.str "Europe/Paris")]),
          ("mode", JVal.str "x"),
          ("energySavingMode", JVal.obj [("enabled", JVal.bool true),
             ("houseConsumptionThreshold", JVal.num 500)]),
          ("bmsBackupLevel", JVal.num 20)])]
      [("country", JVal.obj [("geonameId", JVal.num 123)]),
       ("city", JVal.obj [("geonameId", JVal.num 45)]),
       ("timezone", JVal.obj [("id", JVal.str "Europe/Paris")]),
       ("mode", JVal.str "x"),
       ("energySavingMode", JVal.obj [("enabled", JVal.bool true),
          ("houseConsumptionThreshold", JVal.num 500)]),
       ("bmsBackupLevel", JVal.num 20)]
      [("country", JVal.num 123),
       ("city", JVal.num 45),
       ("timezone", JVal.str "Europe/Paris"),
       ("mode", JVal.str "x"),
       ("energySavingMode", JVal.obj [("enabled", JVal.bool true),
          ("houseConsumptionThreshold", JVal.num 450)]),
       ("bmsBackupLevel", JVal.num 20)] (.ok (.obj []))
      (by simp) (by simp) rfl rfl

end Eaton
